import Mathlib

/-!
Verification of the lazystream core against its specification.

The embedding mirrors src/main.rs, src/generate.rs and src/normal.rs.
Types and functions declared in repository files that are not present
(src/stream.rs, src/opt.rs, src/generic_stats_api.rs, the read-input crate)
are modelled from the spec where marked.
-/

set_option autoImplicit false

namespace Lazystream

def VERSION : String := "1.5.0"

def HOST : String := "http://freegamez.ga"

/-- Modelled from the spec: Cdn (declared in src/opt.rs, not present) is
"an enumerated selector naming which upstream CDN's manifest endpoint to
query". -/
inductive Cdn where
  | akc
  | l3c
  deriving DecidableEq, Repr

/-- Modelled from the spec: Quality (declared in src/opt.rs, not present) is
"an enumerated selector (e.g. specific resolution/bitrate tier) used to pick
one variant out of an HLS master manifest's variant list". -/
inductive Quality where
  | q720p60
  | q720p
  | q540p
  | q360p
  deriving DecidableEq, Repr

/-- Error taxonomy of spec section 7.  The Rust code carries dynamic
failure::Error values; the distinct conditions are modelled as constructors.
noStreamsAvailable is the error built at src/normal.rs line 67 with the
message "No streams available yet"; blocked models the read-input loop
waiting forever once the modelled input stream is exhausted. -/
inductive AppError where
  | network (m : String)
  | parse (m : String)
  | noStreamsAvailable
  | qualityNotFound
  | msg (s : String)
  | blocked
  deriving DecidableEq, Repr

/-- A team as used by src/generate.rs (game.away_team / game.home_team). -/
structure Team where
  team_name : String
  deriving DecidableEq, Repr

/-- One image cut of the per-game media (src/generate.rs lines 163-169). -/
structure Cut where
  src : String
  width : Nat
  height : Nat
  deriving DecidableEq, Repr

/-- The two cuts used by src/generate.rs line 163. -/
structure GameCuts where
  cut_320_180 : Cut
  cut_2048_1152 : Cut
  deriving DecidableEq, Repr

/-- One stream feed of a game as iterated by src/generate.rs lines 86 and
179.  The resolution methods quality_link / master_link live in
src/stream.rs (not present); modelled from the spec as functions from the
selectors to a playable URL or an error. -/
structure GameStream where
  feed_type : String
  quality_link : Cdn → Quality → Except AppError String
  master_link : Cdn → Except AppError String

/-- A game as used by src/generate.rs.  game_time_local carries the chrono
formatting game_date.with_timezone(Local).time().format("%-I:%M %p");
game_date_local carries the "%Y%m%d" local calendar date of game_date (the
broadcast day).  streams mirrors game.streams.as_mut().unwrap(), always
populated in the generate flow.  game_cuts and description model the
per-game fetches game.game_cuts().await and game.description().await of
src/stream.rs (not present), already resolved to their optional results. -/
structure Game where
  game_time_local : String
  game_date_local : String
  away_team : Team
  home_team : Team
  streams : List GameStream
  game_cuts : Option GameCuts
  description : Option String

/-- The per-stream resolution step of src/generate.rs lines 87-91 and
180-184: quality_link when a quality was requested, else master_link. -/
def resolveLink (s : GameStream) (cdn : Cdn) (quality : Option Quality) :
    Except AppError String :=
  match quality with
  | some q => s.quality_link cdn q
  | none => s.master_link cdn

/-- One EXTINF record of the playlist written by create_playlist
(src/generate.rs lines 109-116). -/
structure M3uRecord where
  cuid : Nat
  tvg_id : Nat
  tvg_name : String
  title : String
  url : String
  deriving DecidableEq, Repr

/-- The non-xmltv record title of src/generate.rs lines 97-107. -/
def playlistTitle (g : Game) (s : GameStream) : String :=
  g.game_time_local ++ " " ++ g.away_team.team_name ++ " @ "
    ++ g.home_team.team_name ++ " " ++ s.feed_type

/-- The record built by src/generate.rs lines 93-116 for a stream whose link
resolved, at shared-counter value id: CUID and tvg-id are both
start_channel + id, tvg-name is "Lazyman {id+1}", and the title is the
anonymized label in xmltv mode. -/
def mkM3uRecord (startChannel : Nat) (id : Nat) (isXmltv : Bool) (g : Game)
    (s : GameStream) (link : String) : M3uRecord :=
  { cuid := startChannel + id
    tvg_id := startChannel + id
    tvg_name := "Lazyman " ++ toString (id + 1)
    title := if isXmltv then "Lazyman " ++ toString (id + 1) else playlistTitle g s
    url := link }

/-- The inner stream loop of create_playlist (src/generate.rs lines 86-120),
threading the shared counter id: a stream whose link resolves appends one
record and increments id; a failing stream is skipped and id unchanged.
In the Rust source id and start_channel are u32; the counter counts
successful streams of the input list, so the embedding uses Nat. -/
def playlistStreams (cdn : Cdn) (quality : Option Quality) (isXmltv : Bool)
    (startChannel : Nat) (g : Game) :
    List GameStream → Nat → List M3uRecord × Nat
  | [], id => ([], id)
  | s :: rest, id =>
    match resolveLink s cdn quality with
    | Except.ok link =>
      let r := mkM3uRecord startChannel id isXmltv g s link
      let p := playlistStreams cdn quality isXmltv startChannel g rest (id + 1)
      (r :: p.1, p.2)
    | Except.error _ => playlistStreams cdn quality isXmltv startChannel g rest id

/-- The outer game loop of create_playlist (src/generate.rs lines 84-121). -/
def playlistGames (cdn : Cdn) (quality : Option Quality) (isXmltv : Bool)
    (startChannel : Nat) : List Game → Nat → List M3uRecord
  | [], _ => []
  | g :: gs, id =>
    let p := playlistStreams cdn quality isXmltv startChannel g g.streams id
    p.1 ++ playlistGames cdn quality isXmltv startChannel gs p.2

/-- The records emitted by create_playlist (src/generate.rs), shared counter
starting at 0. -/
def create_playlist_records (games : List Game) (cdn : Cdn)
    (quality : Option Quality) (isXmltv : Bool) (startChannel : Nat) :
    List M3uRecord :=
  playlistGames cdn quality isXmltv startChannel games 0

/-- Rendering of one record, src/generate.rs lines 109-116. -/
def renderM3uRecord (r : M3uRecord) : String :=
  "#EXTINF:-1 CUID=\"" ++ toString r.cuid ++ "\" tvg-id=\"" ++ toString r.tvg_id
    ++ "\" tvg-name=\"" ++ r.tvg_name ++ "\"," ++ r.title ++ "\n" ++ r.url ++ "\n"

/-- The full text create_playlist writes to the .m3u file
(src/generate.rs lines 81-123). -/
def create_playlist (games : List Game) (cdn : Cdn) (quality : Option Quality)
    (isXmltv : Bool) (startChannel : Nat) : String :=
  "#EXTM3U\n"
    ++ String.join ((create_playlist_records games cdn quality isXmltv startChannel).map renderM3uRecord)

/-- The links of a stream list that resolve successfully, in iteration
order. -/
def okLinks (cdn : Cdn) (quality : Option Quality) (ss : List GameStream) :
    List String :=
  ss.filterMap (fun s => (resolveLink s cdn quality).toOption)

/-- The successfully resolving links of all streams of all games, in
iteration order. -/
def gamesOkLinks (cdn : Cdn) (quality : Option Quality) (games : List Game) :
    List String :=
  games.flatMap (fun g => okLinks cdn quality g.streams)

/-- The contiguous id block c, c+1, ..., c+k-1. -/
def idRange (c k : Nat) : List Nat := (List.range k).map (fun i => c + i)

theorem idRange_zero (c : Nat) : idRange c 0 = [] := rfl

theorem idRange_succ (c k : Nat) :
    idRange c (k + 1) = c :: idRange (c + 1) k := by
  unfold idRange
  rw [List.range_succ_eq_map, List.map_cons, List.map_map]
  refine congrArg₂ _ (by simp) (List.map_congr_left ?_)
  intro i _
  simp [Function.comp]
  omega

theorem idRange_length (c k : Nat) : (idRange c k).length = k := by
  simp [idRange]

theorem idRange_append (c a b : Nat) :
    idRange c (a + b) = idRange c a ++ idRange (c + a) b := by
  induction a generalizing c with
  | zero => simp [idRange_zero]
  | succ n ih =>
    have h1 : n + 1 + b = (n + b) + 1 := by omega
    rw [h1, idRange_succ, idRange_succ, ih (c + 1), List.cons_append]
    have h2 : c + 1 + n = c + (n + 1) := by omega
    rw [h2]

theorem playlistStreams_spec (cdn : Cdn) (quality : Option Quality)
    (isXmltv : Bool) (startChannel : Nat) (g : Game) (ss : List GameStream) :
    ∀ id : Nat,
      (playlistStreams cdn quality isXmltv startChannel g ss id).2
          = id + (okLinks cdn quality ss).length
        ∧ (playlistStreams cdn quality isXmltv startChannel g ss id).1.map M3uRecord.url
          = okLinks cdn quality ss
        ∧ (playlistStreams cdn quality isXmltv startChannel g ss id).1.map M3uRecord.cuid
          = idRange (startChannel + id) (okLinks cdn quality ss).length
        ∧ (playlistStreams cdn quality isXmltv startChannel g ss id).1.map M3uRecord.tvg_id
          = idRange (startChannel + id) (okLinks cdn quality ss).length := by
  induction ss with
  | nil =>
    intro id
    simp [playlistStreams, okLinks, idRange_zero]
  | cons s rest ih =>
    intro id
    cases h : resolveLink s cdn quality with
    | ok link =>
      have ihx := ih (id + 1)
      have hok : okLinks cdn quality (s :: rest) = link :: okLinks cdn quality rest := by
        simp [okLinks, h, Except.toOption]
      have harith : startChannel + id + 1 = startChannel + (id + 1) := by omega
      refine ⟨?_, ?_, ?_, ?_⟩
      · simp only [playlistStreams, h, hok, List.length_cons, ihx.1]
        omega
      · simp only [playlistStreams, h, List.map_cons, ihx.2.1, hok, mkM3uRecord]
      · simp only [playlistStreams, h, List.map_cons, ihx.2.2.1, hok,
          List.length_cons, idRange_succ, mkM3uRecord, harith]
      · simp only [playlistStreams, h, List.map_cons, ihx.2.2.2, hok,
          List.length_cons, idRange_succ, mkM3uRecord, harith]
    | error e =>
      have ihx := ih id
      have hok : okLinks cdn quality (s :: rest) = okLinks cdn quality rest := by
        simp [okLinks, h, Except.toOption]
      simpa only [playlistStreams, h, hok] using ihx

theorem playlistGames_spec (cdn : Cdn) (quality : Option Quality)
    (isXmltv : Bool) (startChannel : Nat) (games : List Game) :
    ∀ id : Nat,
      (playlistGames cdn quality isXmltv startChannel games id).map M3uRecord.url
          = gamesOkLinks cdn quality games
        ∧ (playlistGames cdn quality isXmltv startChannel games id).map M3uRecord.cuid
          = idRange (startChannel + id) (gamesOkLinks cdn quality games).length
        ∧ (playlistGames cdn quality isXmltv startChannel games id).map M3uRecord.tvg_id
          = idRange (startChannel + id) (gamesOkLinks cdn quality games).length := by
  induction games with
  | nil =>
    intro id
    simp [playlistGames, gamesOkLinks, idRange_zero]
  | cons g gs ih =>
    intro id
    have hs := playlistStreams_spec cdn quality isXmltv startChannel g g.streams id
    have ihx := ih (id + (okLinks cdn quality g.streams).length)
    have hgl : gamesOkLinks cdn quality (g :: gs)
        = okLinks cdn quality g.streams ++ gamesOkLinks cdn quality gs := by
      simp [gamesOkLinks]
    refine ⟨?_, ?_, ?_⟩ <;>
      simp only [playlistGames, List.map_append, hgl, List.length_append,
        hs.1, hs.2.1, hs.2.2.1, hs.2.2.2, ihx.1, ihx.2.1, ihx.2.2,
        idRange_append]
    · refine congrArg₂ _ rfl ?_
      rw [show startChannel + id + (okLinks cdn quality g.streams).length
          = startChannel + (id + (okLinks cdn quality g.streams).length) by omega]
    · refine congrArg₂ _ rfl ?_
      rw [show startChannel + id + (okLinks cdn quality g.streams).length
          = startChannel + (id + (okLinks cdn quality g.streams).length) by omega]

/-- C1: batch playlist generation is fault-tolerant: a stream whose link
resolution fails is omitted and generation continues; the emitted records
are exactly the successfully resolving streams in order, and their CUID and
tvg-id values are assigned contiguously from start_channel with no gap, so
k successes out of n streams yield exactly k records with ids
start_channel .. start_channel + k - 1. -/
theorem c1_playlist_fault_tolerant (games : List Game) (cdn : Cdn)
    (quality : Option Quality) (isXmltv : Bool) (startChannel : Nat) :
    (create_playlist_records games cdn quality isXmltv startChannel).length
        = (gamesOkLinks cdn quality games).length
      ∧ (create_playlist_records games cdn quality isXmltv startChannel).map M3uRecord.url
        = gamesOkLinks cdn quality games
      ∧ (create_playlist_records games cdn quality isXmltv startChannel).map M3uRecord.cuid
        = idRange startChannel (gamesOkLinks cdn quality games).length
      ∧ (create_playlist_records games cdn quality isXmltv startChannel).map M3uRecord.tvg_id
        = idRange startChannel (gamesOkLinks cdn quality games).length := by
  have h := playlistGames_spec cdn quality isXmltv startChannel games 0
  refine ⟨?_, ?_, ?_, ?_⟩
  · have := congrArg List.length h.1
    simpa [create_playlist_records] using this
  · simpa [create_playlist_records] using h.1
  · simpa [create_playlist_records] using h.2.1
  · simpa [create_playlist_records] using h.2.2

/-- One channel element of the fixed 100-channel bank
(src/generate.rs lines 148-155). -/
structure XmltvChannel where
  id : Nat
  display_name : String
  deriving DecidableEq, Repr

/-- The while-loop channel bank of create_xmltv (src/generate.rs lines
146-158): id runs over 0..100; each element has id start_channel + id and
display name "Lazyman {id+1}". -/
def xmltvChannels (startChannel : Nat) : List XmltvChannel :=
  (List.range 100).map
    (fun id => { id := startChannel + id, display_name := "Lazyman " ++ toString (id + 1) })

/-- The value of Local::now() at generation time, carried as the two
formattings create_xmltv uses: "%Y%m%d" and "%z" (src/generate.rs lines
187-211). -/
structure LocalNow where
  date : String
  tz : String
  deriving DecidableEq, Repr

/-- One programme element of src/generate.rs lines 201-215. -/
structure XmltvProgramme where
  channel : Nat
  start : String
  stop : String
  title : String
  desc : String
  icons : String
  deriving DecidableEq, Repr

/-- One icon line of src/generate.rs lines 166-169. -/
def cutIcon (c : Cut) : String :=
  "\n      <icon src=\"" ++ c.src ++ "\" width=\"" ++ toString c.width
    ++ "\" height=\"" ++ toString c.height ++ "\"></icon>"

/-- The per-game icon text of src/generate.rs lines 162-175: the two cuts
when game_cuts is available, else a single empty-source icon. -/
def gameIcons (g : Game) : String :=
  match g.game_cuts with
  | some cuts => cutIcon cuts.cut_320_180 ++ cutIcon cuts.cut_2048_1152
  | none => "\n      <icon src=\"\"></icon>"

/-- The programme title of src/generate.rs lines 189-199. -/
def programmeTitle (g : Game) (s : GameStream) : String :=
  g.game_time_local ++ " " ++ s.feed_type ++ " " ++ g.away_team.team_name
    ++ " @ " ++ g.home_team.team_name

/-- The programme record of src/generate.rs lines 186-218 at shared-counter
value id.  Note the start and stop attributes are built from Local::now()
(the generation instant), not from the game's date: date "%Y%m%d" followed
by 000000 / 235959 and the "%z" offset. -/
def mkProgramme (startChannel : Nat) (id : Nat) (now : LocalNow) (g : Game)
    (s : GameStream) : XmltvProgramme :=
  { channel := startChannel + id
    start := now.date ++ "000000 " ++ now.tz
    stop := now.date ++ "235959 " ++ now.tz
    title := programmeTitle g s
    desc := g.description.getD ""
    icons := gameIcons g }

/-- The inner stream loop of create_xmltv (src/generate.rs lines 179-219):
a programme is appended exactly when the stream's link resolves (the link
value itself is unused), sharing the same counter discipline as
create_playlist. -/
def xmltvStreams (cdn : Cdn) (quality : Option Quality) (startChannel : Nat)
    (now : LocalNow) (g : Game) :
    List GameStream → Nat → List XmltvProgramme × Nat
  | [], id => ([], id)
  | s :: rest, id =>
    match resolveLink s cdn quality with
    | Except.ok _ =>
      let r := mkProgramme startChannel id now g s
      let p := xmltvStreams cdn quality startChannel now g rest (id + 1)
      (r :: p.1, p.2)
    | Except.error _ => xmltvStreams cdn quality startChannel now g rest id

/-- The outer game loop of create_xmltv (src/generate.rs lines 160-220). -/
def xmltvGames (cdn : Cdn) (quality : Option Quality) (startChannel : Nat)
    (now : LocalNow) : List Game → Nat → List XmltvProgramme
  | [], _ => []
  | g :: gs, id =>
    let p := xmltvStreams cdn quality startChannel now g g.streams id
    p.1 ++ xmltvGames cdn quality startChannel now gs p.2

/-- The programme records emitted by create_xmltv, shared counter starting
at 0 (src/generate.rs line 160). -/
def create_xmltv_programmes (games : List Game) (cdn : Cdn)
    (quality : Option Quality) (startChannel : Nat) (now : LocalNow) :
    List XmltvProgramme :=
  xmltvGames cdn quality startChannel now games 0

theorem xmltvStreams_spec (cdn : Cdn) (quality : Option Quality)
    (startChannel : Nat) (now : LocalNow) (g : Game) (ss : List GameStream) :
    ∀ id : Nat,
      (xmltvStreams cdn quality startChannel now g ss id).2
          = id + (okLinks cdn quality ss).length
        ∧ (xmltvStreams cdn quality startChannel now g ss id).1.map XmltvProgramme.channel
          = idRange (startChannel + id) (okLinks cdn quality ss).length := by
  induction ss with
  | nil =>
    intro id
    simp [xmltvStreams, okLinks, idRange_zero]
  | cons s rest ih =>
    intro id
    cases h : resolveLink s cdn quality with
    | ok link =>
      have ihx := ih (id + 1)
      have hok : okLinks cdn quality (s :: rest) = link :: okLinks cdn quality rest := by
        simp [okLinks, h, Except.toOption]
      have harith : startChannel + id + 1 = startChannel + (id + 1) := by omega
      refine ⟨?_, ?_⟩
      · simp only [xmltvStreams, h, hok, List.length_cons, ihx.1]
        omega
      · simp only [xmltvStreams, h, List.map_cons, ihx.2, hok,
          List.length_cons, idRange_succ, mkProgramme, harith]
    | error e =>
      have ihx := ih id
      have hok : okLinks cdn quality (s :: rest) = okLinks cdn quality rest := by
        simp [okLinks, h, Except.toOption]
      simpa only [xmltvStreams, h, hok] using ihx

theorem xmltvGames_spec (cdn : Cdn) (quality : Option Quality)
    (startChannel : Nat) (now : LocalNow) (games : List Game) :
    ∀ id : Nat,
      (xmltvGames cdn quality startChannel now games id).map XmltvProgramme.channel
        = idRange (startChannel + id) (gamesOkLinks cdn quality games).length := by
  induction games with
  | nil =>
    intro id
    simp [xmltvGames, gamesOkLinks, idRange_zero]
  | cons g gs ih =>
    intro id
    have hs := xmltvStreams_spec cdn quality startChannel now g g.streams id
    have ihx := ih (id + (okLinks cdn quality g.streams).length)
    have hgl : gamesOkLinks cdn quality (g :: gs)
        = okLinks cdn quality g.streams ++ gamesOkLinks cdn quality gs := by
      simp [gamesOkLinks]
    simp only [xmltvGames, List.map_append, hgl, List.length_append,
      hs.1, hs.2, ihx, idRange_append]
    refine congrArg₂ _ rfl ?_
    rw [show startChannel + id + (okLinks cdn quality g.streams).length
        = startChannel + (id + (okLinks cdn quality g.streams).length) by omega]

/-- C3: the generated XMLTV document contains exactly 100 channel elements,
with ids start_channel .. start_channel + 99 and display names
"Lazyman 1" .. "Lazyman 100", for every start_channel and independently of
the games and streams (the channel bank of src/generate.rs lines 146-158
does not read them). -/
theorem c3_xmltv_hundred_channels (startChannel : Nat) :
    (xmltvChannels startChannel).length = 100
      ∧ (xmltvChannels startChannel).map XmltvChannel.id = idRange startChannel 100
      ∧ (xmltvChannels startChannel).map XmltvChannel.display_name
        = (List.range 100).map (fun i => "Lazyman " ++ toString (i + 1)) := by
  refine ⟨by simp [xmltvChannels], ?_, ?_⟩ <;>
    simp [xmltvChannels, idRange, List.map_map, Function.comp]

/-- C2: playlist and guide written with the same games, CDN, quality and
start_channel number their records identically: both id sequences equal the
contiguous block start_channel .. start_channel + k - 1 (k the number of
successfully resolving streams), so the record at success-index i carries
tvg-id/CUID start_channel + i in the .m3u and programme channel
start_channel + i in the .xml. -/
theorem c2_playlist_xmltv_numbering_match (games : List Game) (cdn : Cdn)
    (quality : Option Quality) (startChannel : Nat) (now : LocalNow) :
    (create_playlist_records games cdn quality true startChannel).map M3uRecord.tvg_id
        = (create_xmltv_programmes games cdn quality startChannel now).map XmltvProgramme.channel
      ∧ (create_playlist_records games cdn quality true startChannel).map M3uRecord.cuid
        = (create_xmltv_programmes games cdn quality startChannel now).map XmltvProgramme.channel
      ∧ (create_xmltv_programmes games cdn quality startChannel now).map XmltvProgramme.channel
        = idRange startChannel (gamesOkLinks cdn quality games).length
      ∧ ∀ i : Nat,
          ((create_playlist_records games cdn quality true startChannel).get? i).map M3uRecord.tvg_id
            = ((create_xmltv_programmes games cdn quality startChannel now).get? i).map XmltvProgramme.channel := by
  have hp := playlistGames_spec cdn quality true startChannel games 0
  have hx := xmltvGames_spec cdn quality startChannel now games 0
  have hx0 : (create_xmltv_programmes games cdn quality startChannel now).map XmltvProgramme.channel
      = idRange startChannel (gamesOkLinks cdn quality games).length := by
    simpa [create_xmltv_programmes] using hx
  have hcu : (create_playlist_records games cdn quality true startChannel).map M3uRecord.cuid
      = idRange startChannel (gamesOkLinks cdn quality games).length := by
    simpa [create_playlist_records] using hp.2.1
  have hti : (create_playlist_records games cdn quality true startChannel).map M3uRecord.tvg_id
      = idRange startChannel (gamesOkLinks cdn quality games).length := by
    simpa [create_playlist_records] using hp.2.2
  have htv : (create_playlist_records games cdn quality true startChannel).map M3uRecord.tvg_id
      = (create_xmltv_programmes games cdn quality startChannel now).map XmltvProgramme.channel := by
    rw [hti, hx0]
  refine ⟨htv, by rw [hcu, hx0], hx0, ?_⟩
  intro i
  have := congrArg (fun l => List.get? l i) htv
  simpa [List.get?_map] using this

/-- The property C9 asserts of a programme emitted for a game: its start and
stop attributes fall on the broadcast day of that game (00:00:00 and
23:59:59 of the game's local date, in the local offset). -/
def onBroadcastDay (g : Game) (now : LocalNow) (p : XmltvProgramme) : Prop :=
  p.start = g.game_date_local ++ "000000 " ++ now.tz
    ∧ p.stop = g.game_date_local ++ "235959 " ++ now.tz

/-- A concrete game whose broadcast day is 2020-01-01, with one stream that
resolves. -/
def gameC9 : Game :=
  { game_time_local := "7:00 PM"
    game_date_local := "20200101"
    away_team := { team_name := "Away" }
    home_team := { team_name := "Home" }
    streams := [{ feed_type := "HOME"
                  quality_link := fun _ _ => Except.ok "http://x/quality.m3u8"
                  master_link := fun _ => Except.ok "http://x/master.m3u8" }]
    game_cuts := none
    description := none }

/-- A generation instant on the next local day, 2020-01-02, offset +0000. -/
def nowC9 : LocalNow := { date := "20200102", tz := "+0000" }

/-- C9 counterexample: generating the guide for gameC9 (broadcast day
2020-01-01) at a generation instant on 2020-01-02 emits a programme whose
start/stop attributes read 20200102000000/20200102235959 — the generation
day, not the broadcast day of the game — so the claim as stated is false:
create_xmltv stamps Local::now()'s date (src/generate.rs lines 187-211),
not the game's date. -/
theorem c9_counterexample :
    (create_xmltv_programmes [gameC9] Cdn.akc none 1000 nowC9).map XmltvProgramme.start
        = ["20200102000000 +0000"]
      ∧ gameC9.game_date_local ++ "000000 " ++ nowC9.tz = "20200101000000 +0000"
      ∧ ¬ ∀ p ∈ create_xmltv_programmes [gameC9] Cdn.akc none 1000 nowC9,
          onBroadcastDay gameC9 nowC9 p := by
  refine ⟨rfl, rfl, ?_⟩
  intro h
  have hmem : (mkProgramme 1000 0 nowC9 gameC9 (gameC9.streams.get ⟨0, by decide⟩))
      ∈ create_xmltv_programmes [gameC9] Cdn.akc none 1000 nowC9 := by
    simp [create_xmltv_programmes, xmltvGames, xmltvStreams, gameC9, resolveLink]
  have := (h _ hmem).1
  simp [mkProgramme, nowC9, gameC9, onBroadcastDay] at this

/-- C9 (amended): every programme element spans the full day 00:00:00 to
23:59:59 in the local offset, in YYYYMMDDHHMMSS ±HHMM format — but on the
local date of the generation instant (Local::now()), which coincides with
the game's broadcast day only when the guide is generated on that day. -/
theorem c9_programme_day_span (games : List Game) (cdn : Cdn)
    (quality : Option Quality) (startChannel : Nat) (now : LocalNow)
    (p : XmltvProgramme)
    (hp : p ∈ create_xmltv_programmes games cdn quality startChannel now) :
    p.start = now.date ++ "000000 " ++ now.tz
      ∧ p.stop = now.date ++ "235959 " ++ now.tz := by
  have main : ∀ (gs : List Game) (id : Nat),
      p ∈ xmltvGames cdn quality startChannel now gs id →
      p.start = now.date ++ "000000 " ++ now.tz
        ∧ p.stop = now.date ++ "235959 " ++ now.tz := by
    intro gs
    induction gs with
    | nil => intro id h; simp [xmltvGames] at h
    | cons g rest ih =>
      intro id h
      simp only [xmltvGames, List.mem_append] at h
      rcases h with h | h
      · clear ih
        revert id
        induction g.streams with
        | nil => intro id h; simp [xmltvStreams] at h
        | cons s ss ihs =>
          intro id h
          cases hr : resolveLink s cdn quality with
          | ok link =>
            simp only [xmltvStreams, hr, List.mem_cons] at h
            rcases h with h | h
            · subst h
              exact ⟨rfl, rfl⟩
            · exact ihs (id + 1) h
          | error e =>
            simp only [xmltvStreams, hr] at h
            exact ihs id h
      · exact ih _ h
  exact main games 0 hp

/-- Witness for c9_programme_day_span at a concrete game and instant. -/
theorem c9_programme_day_span_witness :
    (mkProgramme 1000 0 nowC9 gameC9 (gameC9.streams.get ⟨0, by decide⟩)).start
        = nowC9.date ++ "000000 " ++ nowC9.tz
      ∧ (mkProgramme 1000 0 nowC9 gameC9 (gameC9.streams.get ⟨0, by decide⟩)).stop
        = nowC9.date ++ "235959 " ++ nowC9.tz :=
  c9_programme_day_span [gameC9] Cdn.akc none 1000 nowC9 _
    (by simp [create_xmltv_programmes, xmltvGames, xmltvStreams, gameC9, resolveLink])

/-- Modelled from the spec: Sport (declared in src/opt.rs, not present);
its Display is the league field of the manifest-fetch URL
(src/normal.rs line 106). -/
inductive Sport where
  | nhl
  | mlb
  deriving DecidableEq, Repr

def sportDisplay : Sport → String
  | Sport.nhl => "nhl"
  | Sport.mlb => "mlb"

def cdnDisplay : Cdn → String
  | Cdn.akc => "akc"
  | Cdn.l3c => "l3c"

/-- An HLS master-playlist variant entry.  Modelled from the spec
(src/stream.rs not present): "a sequence of variant-stream entries, each
with a resolution/bandwidth attribute and a relative or absolute URI". -/
structure VariantStream where
  name : String
  uri : String
  deriving DecidableEq, Repr

/-- A parsed master manifest, modelled from the spec as its variant list. -/
structure MasterManifest where
  variants : List VariantStream
  deriving DecidableEq, Repr

/-- Modelled from the spec: the tier label a Quality selector names. -/
def qualityName : Quality → String
  | Quality.q720p60 => "720p60"
  | Quality.q720p => "720p"
  | Quality.q540p => "540p"
  | Quality.q360p => "360p"

def strStartsWith (s p : String) : Bool := p.data.isPrefixOf s.data

/-- The characters before the last slash. -/
def dropAfterLastSlash (cs : List Char) : List Char :=
  ((cs.reverse.dropWhile (fun c => c ≠ '/')).drop 1).reverse

/-- Modelled from the spec: resolve a variant URI against the master URL's
base — an absolute URI is kept, a relative one is joined to the directory
of the master URL. -/
def resolveUri (masterUrl : String) (uri : String) : String :=
  if strStartsWith uri ("http") then uri
  else String.mk (dropAfterLastSlash masterUrl.data) ++ "/" ++ uri

/-- Modelled from the spec: get_quality_url (src/stream.rs not present,
called at src/normal.rs line 115): select the variant entry exactly
matching the requested quality tier and resolve its URI against the master
URL; when no entry matches, fail with QualityNotFound — never fall back to
the master or any other URL. -/
def get_quality_url (masterUrl : String) (m3u8 : MasterManifest)
    (quality : Quality) : Except AppError String :=
  match m3u8.variants.find? (fun v => v.name == qualityName quality) with
  | some v => Except.ok (resolveUri masterUrl v.uri)
  | none => Except.error AppError.qualityNotFound

/-- Modelled from the spec: quality_link (src/stream.rs not present): fetch
the provider's master URL for the feed, download the master manifest there,
and resolve the requested quality against it.  The two network operations
are passed in as functions (get_master_url, get_master_m3u8 in
src/normal.rs lines 113-114). -/
def quality_link (get_master_url : String → Except AppError String)
    (get_master_m3u8 : String → Except AppError MasterManifest)
    (url : String) (quality : Quality) : Except AppError String := do
  let masterUrl ← get_master_url url
  let m3u8 ← get_master_m3u8 masterUrl
  get_quality_url masterUrl m3u8 quality

/-- The manifest-fetch URL of src/normal.rs lines 103-110, built verbatim
from host, sport, date, feed id and cdn. -/
def buildStreamUrl (sport : Sport) (dateStr : String) (streamId : String)
    (cdn : Cdn) : String :=
  HOST ++ "/getM3U8.php?league=" ++ sportDisplay sport ++ "&date=" ++ dateStr
    ++ "&id=" ++ streamId ++ "&cdn=" ++ cdnDisplay cdn

/-- src/normal.rs lines 112-119: with no quality requested the built URL is
printed verbatim; with a quality the master URL is fetched, the manifest
downloaded and the quality resolved.  The second component records the
network requests issued, in order — empty in the no-quality branch. -/
def resolveStreamUrl (quality : Option Quality) (url : String)
    (get_master_url : String → Except AppError String)
    (get_master_m3u8 : String → Except AppError MasterManifest) :
    Except AppError (String × List String) :=
  match quality with
  | none => Except.ok (url, [])
  | some q => do
    let masterUrl ← get_master_url url
    let m3u8 ← get_master_m3u8 masterUrl
    let qualityUrl ← get_quality_url masterUrl m3u8 q
    Except.ok (qualityUrl, [url, masterUrl])

/-- Modelled from the spec: the read-input crate's
input().add_test(test).get() loop used at src/normal.rs lines 54-57 and
81-84 (the crate is outside src/): tokens are read from standard input,
each failing to parse as an integer (none) or failing the test triggers a
re-prompt, and the first accepted value is returned with the unconsumed
input.  A none result models the real loop blocking forever once the
modelled input is exhausted; no input makes it panic. -/
def getValidInput (test : Nat → Bool) :
    List (Option Nat) → Option (Nat × List (Option Nat))
  | [] => none
  | o :: rest =>
    match o with
    | some v => if test v then some (v, rest) else getValidInput test rest
    | none => getValidInput test rest

/-- The bound test of src/normal.rs lines 56 and 83:
input > 0 && input <= count. -/
def selectionTest (count : Nat) (v : Nat) : Bool :=
  decide (0 < v) && decide (v ≤ count)

/-- The numbered menu of src/normal.rs lines 39-51 and 73-79, from running
index idx: one printed line per item, 1-based. -/
def menuLinesFrom (idx : Nat) : List String → List String
  | [] => []
  | x :: rest => (toString (idx + 1) ++ ") " ++ x) :: menuLinesFrom (idx + 1) rest

def menuLines (items : List String) : List String := menuLinesFrom 0 items

/-- Reading a validated choice, src/normal.rs lines 53-57 and 80-84. -/
def selectIdx (count : Nat) (stdin : List (Option Nat)) :
    Except AppError (Nat × List (Option Nat)) :=
  match getValidInput (selectionTest count) stdin with
  | some p => Except.ok p
  | none => Except.error AppError.blocked

/-- The selection of src/normal.rs lines 53-60 and 80-88: read a validated
1-based choice, then index the original list at choice - 1 (the
out-of-range arm is the ok_or_else "Invalid ... choice" error, unreachable
after a passed bound test). -/
def selectFromList (items : List String) (stdin : List (Option Nat)) :
    Except AppError (String × List (Option Nat)) := do
  let p ← selectIdx items.length stdin
  match items.get? (p.1 - 1) with
  | some item => Except.ok (item, p.2)
  | none => Except.error (AppError.msg "Invalid choice")

/-- A schedule game as used by src/normal.rs lines 39-62: game_pk, the
formatted local kickoff time, and the two team names
(game.teams.away.detail.name / game.teams.home.detail.name). -/
structure ScheduleGame where
  game_pk : Nat
  time_local : String
  away_name : String
  home_name : String
  deriving DecidableEq, Repr

/-- The schedule of src/normal.rs line 36, with its formatted date. -/
structure Schedule where
  date : String
  games : List ScheduleGame
  deriving DecidableEq, Repr

/-- One stream item of an EPG entry (src/normal.rs lines 73-101). -/
structure EpgStreamItem where
  media_feed_type : Option String
  media_playback_id : Option String
  id : Option Nat
  deriving DecidableEq, Repr

/-- One EPG entry (src/normal.rs lines 69-71): a title and an optional item
list. -/
structure Epg where
  title : String
  items : Option (List EpgStreamItem)
  deriving DecidableEq, Repr

/-- The media block of per-game content: an optional EPG list, absent when
no streams are scheduled yet (src/normal.rs lines 64-67). -/
structure MediaContent where
  epg : Option (List Epg)
  deriving DecidableEq, Repr

structure GameContent where
  media : MediaContent
  deriving DecidableEq, Repr

/-- The menu line of the game-selection loop, src/normal.rs lines 40-50. -/
def scheduleGameLine (g : ScheduleGame) : String :=
  g.time_local ++ " - " ++ g.away_name ++ " @ " ++ g.home_name

/-- The stream id of src/normal.rs lines 90-101: NHL uses
media_playback_id, other sports the numeric id; a missing field is an
error. -/
def streamId (sport : Sport) (s : EpgStreamItem) : Except AppError String :=
  if sport = Sport.nhl then
    match s.media_playback_id with
    | some pid => Except.ok pid
    | none => Except.error (AppError.msg "Unexpected error, stream media playback id is empty")
  else
    match s.id with
    | some i => Except.ok (toString i)
    | none => Except.error (AppError.msg "Unexpected error, stream id is empty")

/-- The feed-type lines of src/normal.rs lines 73-79: each item's
media_feed_type, a missing one aborting with an error. -/
def feedTypes : List EpgStreamItem → Except AppError (List String)
  | [] => Except.ok []
  | s :: rest =>
    match s.media_feed_type with
    | some ft => do
      let fts ← feedTypes rest
      Except.ok (ft :: fts)
    | none => Except.error (AppError.msg "Unexpected error, media feed type is empty")

/-- An observable output line of the interactive flow: a printed numbered
menu, or a printed resolved URL. -/
inductive OutLine where
  | menu (lines : List String)
  | url (u : String)
  deriving DecidableEq, Repr

/-- The body of src/normal.rs lines 72-120 for one matching EPG entry with a
present item list: print the stream menu, read a validated choice, take the
item at choice - 1, build its manifest-fetch URL and resolve it per the
quality option.  Returns the printed lines and the unconsumed input. -/
def processEpgItems (sport : Sport) (cdn : Cdn) (quality : Option Quality)
    (dateStr : String)
    (get_master_url : String → Except AppError String)
    (get_master_m3u8 : String → Except AppError MasterManifest)
    (items : List EpgStreamItem) (stdin : List (Option Nat)) :
    Except AppError (List OutLine × List (Option Nat)) := do
  let fts ← feedTypes items
  let p ← selectIdx items.length stdin
  let stream ← match items.get? (p.1 - 1) with
    | some s => Except.ok s
    | none => Except.error (AppError.msg "Invalid stream choice")
  let sid ← streamId sport stream
  let url := buildStreamUrl sport dateStr sid cdn
  let r ← resolveStreamUrl quality url get_master_url get_master_m3u8
  Except.ok ([OutLine.menu (menuLines fts), OutLine.url r.1], p.2)

/-- The for-loop over epg_vec of src/normal.rs lines 69-122: only entries
titled exactly "NHLTV" or "MLBTV" and carrying an item list are processed;
every other entry is skipped without output or input consumption. -/
def processEpgList (sport : Sport) (cdn : Cdn) (quality : Option Quality)
    (dateStr : String)
    (get_master_url : String → Except AppError String)
    (get_master_m3u8 : String → Except AppError MasterManifest) :
    List Epg → List (Option Nat) →
    Except AppError (List OutLine × List (Option Nat))
  | [], stdin => Except.ok ([], stdin)
  | e :: rest, stdin =>
    if e.title = "NHLTV" ∨ e.title = "MLBTV" then
      match e.items with
      | some items => do
        let r ← processEpgItems sport cdn quality dateStr get_master_url get_master_m3u8 items stdin
        let r2 ← processEpgList sport cdn quality dateStr get_master_url get_master_m3u8 rest r.2
        Except.ok (r.1 ++ r2.1, r2.2)
      | none => processEpgList sport cdn quality dateStr get_master_url get_master_m3u8 rest stdin
    else processEpgList sport cdn quality dateStr get_master_url get_master_m3u8 rest stdin

/-- The single-stream interactive flow process of src/normal.rs lines
26-125, over a modelled environment: the schedule-fetch result, the
per-game content fetch, the two manifest network calls, and the
standard-input token stream.  The epg extraction at lines 64-67 turns an
absent EPG list into the distinct "No streams available yet" error. -/
def processSingle (sport : Sport) (cdn : Cdn) (quality : Option Quality)
    (schedule : Except AppError Schedule)
    (get_game_content : Nat → Except AppError GameContent)
    (get_master_url : String → Except AppError String)
    (get_master_m3u8 : String → Except AppError MasterManifest)
    (stdin : List (Option Nat)) :
    Except AppError (List OutLine × List (Option Nat)) := do
  let sched ← schedule
  let gameMenu := menuLines (sched.games.map scheduleGameLine)
  let p ← selectIdx sched.games.length stdin
  let game ← match sched.games.get? (p.1 - 1) with
    | some g => Except.ok g
    | none => Except.error (AppError.msg "Invalid game choice")
  let content ← get_game_content game.game_pk
  let epgVec ← match content.media.epg with
    | some v => Except.ok v
    | none => Except.error AppError.noStreamsAvailable
  let r ← processEpgList sport cdn quality sched.date get_master_url get_master_m3u8 epgVec p.2
  Except.ok (OutLine.menu gameMenu :: r.1, r.2)

theorem except_bind_ok {ε α β : Type} (a : α) (f : α → Except ε β) :
    (Except.ok a : Except ε α) >>= f = f a := rfl

theorem except_bind_error {ε α β : Type} (e : ε) (f : α → Except ε β) :
    (Except.error e : Except ε α) >>= f = Except.error e := rfl

theorem menuLinesFrom_length (items : List String) :
    ∀ idx : Nat, (menuLinesFrom idx items).length = items.length := by
  induction items with
  | nil => intro idx; simp [menuLinesFrom]
  | cons x rest ih => intro idx; simp [menuLinesFrom, ih]

theorem menuLinesFrom_get? (items : List String) :
    ∀ (idx i : Nat) (x : String), items.get? i = some x →
      (menuLinesFrom idx items).get? i = some (toString (idx + i + 1) ++ ") " ++ x) := by
  induction items with
  | nil => intro idx i x h; simp at h
  | cons y rest ih =>
    intro idx i x h
    cases i with
    | zero =>
      simp only [List.get?] at h
      injection h with h
      subst h
      simp [menuLinesFrom]
    | succ n =>
      simp only [List.get?] at h
      have := ih (idx + 1) n x h
      simp only [menuLinesFrom, List.get?]
      rw [this, show idx + 1 + n + 1 = idx + (n + 1) + 1 by omega]

theorem getValidInput_sound (test : Nat → Bool) (stdin : List (Option Nat)) :
    ∀ (v : Nat) (rest : List (Option Nat)),
      getValidInput test stdin = some (v, rest) →
      test v = true
        ∧ ∃ pre, stdin = pre ++ some v :: rest
            ∧ ∀ o ∈ pre, ∀ w, o = some w → test w = false := by
  induction stdin with
  | nil => intro v rest h; simp [getValidInput] at h
  | cons o os ih =>
    intro v rest h
    cases o with
    | none =>
      have h' : getValidInput test os = some (v, rest) := by
        simpa [getValidInput] using h
      obtain ⟨ht, pre, hpre, hall⟩ := ih v rest h'
      refine ⟨ht, none :: pre, by simp [hpre], ?_⟩
      intro o ho w hw
      rcases List.mem_cons.mp ho with rfl | ho2
      · cases hw
      · exact hall o ho2 w hw
    | some u =>
      by_cases htu : test u
      · have h' : (u, os) = (v, rest) := by
          have := h
          simp [getValidInput, htu] at this
          exact Prod.ext this.1 this.2
        injection h' with h1 h2
        subst h1
        subst h2
        exact ⟨htu, [], rfl, by simp⟩
      · have h' : getValidInput test os = some (v, rest) := by
          simpa [getValidInput, htu] using h
        obtain ⟨ht, pre, hpre, hall⟩ := ih v rest h'
        refine ⟨ht, some u :: pre, by simp [hpre], ?_⟩
        intro o ho w hw
        rcases List.mem_cons.mp ho with rfl | ho2
        · injection hw with hw
          subst hw
          simpa using htu
        · exact hall o ho2 w hw

/-- C4: for a non-empty item list the selector prints one line per item
with a 1-based index; tokens are read until the first value v within
[1, n] (non-numeric tokens are skipped, never a panic — every earlier
token fails the bound test), and the selection is the element at 0-based
index v - 1 of the original list, which always exists. -/
theorem c4_interactive_selector (items : List String) (hne : items ≠ [])
    (stdin : List (Option Nat)) (v : Nat) (rest : List (Option Nat))
    (hv : getValidInput (selectionTest items.length) stdin = some (v, rest)) :
    (menuLines items).length = items.length
      ∧ (∀ (i : Nat) (x : String), items.get? i = some x →
          (menuLines items).get? i = some (toString (i + 1) ++ ") " ++ x))
      ∧ 1 ≤ v ∧ v ≤ items.length
      ∧ (∃ x, items.get? (v - 1) = some x)
      ∧ (∀ x, items.get? (v - 1) = some x →
          selectFromList items stdin = Except.ok (x, rest))
      ∧ (∃ pre, stdin = pre ++ some v :: rest
          ∧ ∀ o ∈ pre, ∀ w, o = some w → selectionTest items.length w = false) := by
  obtain ⟨ht, hpre⟩ := getValidInput_sound (selectionTest items.length) stdin v rest hv
  have hb : 0 < v ∧ v ≤ items.length := by
    have := ht
    simp [selectionTest] at this
    exact this
  have hlt : v - 1 < items.length := by omega
  refine ⟨menuLinesFrom_length items 0, ?_, by omega, hb.2, ?_, ?_, hpre⟩
  · intro i x h
    have := menuLinesFrom_get? items 0 i x h
    rwa [show 0 + i + 1 = i + 1 by omega] at this
  · exact ⟨items.get ⟨v - 1, hlt⟩, List.get?_eq_get hlt⟩
  · intro x hx
    have hx' : items[v - 1]? = some x := by
      simpa [List.get?_eq_getElem?] using hx
    simp [selectFromList, selectIdx, hv, except_bind_ok, hx']

/-- Witness for c4_interactive_selector: a 3-item list fed 0, 999, a
non-numeric token, then 2 selects the 0-based index 1 element. -/
theorem c4_interactive_selector_witness :
    getValidInput (selectionTest 3) [some 0, some 999, none, some 2] = some (2, [])
      ∧ selectFromList ["HOME", "AWAY", "FRENCH"] [some 0, some 999, none, some 2]
        = Except.ok ("AWAY", []) :=
  ⟨rfl,
    (c4_interactive_selector ["HOME", "AWAY", "FRENCH"] (by simp)
      [some 0, some 999, none, some 2] 2 [] rfl).2.2.2.2.2.1 "AWAY" rfl⟩

/-- C5: a quality selector that matches no variant entry of the manifest
always fails with QualityNotFound; no URL — the master's or any other — is
ever returned as a fallback. -/
theorem c5_quality_not_found (masterUrl : String) (m3u8 : MasterManifest)
    (quality : Quality)
    (h : ∀ v ∈ m3u8.variants, v.name ≠ qualityName quality) :
    get_quality_url masterUrl m3u8 quality = Except.error AppError.qualityNotFound
      ∧ ∀ s, get_quality_url masterUrl m3u8 quality ≠ Except.ok s := by
  have hfind : m3u8.variants.find? (fun v => v.name == qualityName quality) = none := by
    apply List.find?_eq_none.mpr
    intro v hv
    simpa using h v hv
  constructor
  · simp [get_quality_url, hfind]
  · intro s hs
    simp [get_quality_url, hfind] at hs

/-- A manifest exposing only a 540p variant. -/
def manifestC5 : MasterManifest :=
  { variants := [{ name := "540p", uri := "540p/stream.m3u8" }] }

/-- Witness for c5_quality_not_found: requesting 720p from a 540p-only
manifest fails with QualityNotFound. -/
theorem c5_quality_not_found_witness :
    get_quality_url ("http://h/master.m3u8") manifestC5 Quality.q720p
      = Except.error AppError.qualityNotFound :=
  (c5_quality_not_found ("http://h/master.m3u8") manifestC5 Quality.q720p
    (by decide)).1

/-- C6: quality_link is deterministic — two runs whose network functions
return the same master URL and the same manifest content at every URL
resolve the same quality selector to the same URL. -/
theorem c6_quality_link_deterministic
    (gmu1 gmu2 : String → Except AppError String)
    (gmm1 gmm2 : String → Except AppError MasterManifest)
    (url : String) (quality : Quality)
    (hu : ∀ u, gmu1 u = gmu2 u) (hm : ∀ u, gmm1 u = gmm2 u) :
    quality_link gmu1 gmm1 url quality = quality_link gmu2 gmm2 url quality := by
  unfold quality_link
  rw [hu]
  cases h : gmu2 url with
  | error e => rfl
  | ok masterUrl =>
    show (gmm1 masterUrl >>= fun m3u8 => get_quality_url masterUrl m3u8 quality)
        = (gmm2 masterUrl >>= fun m3u8 => get_quality_url masterUrl m3u8 quality)
    rw [hm]

/-- A fixed network for the c6 witness. -/
def gmuC6 : String → Except AppError String :=
  fun _ => Except.ok "http://h/master.m3u8"

/-- A fixed manifest fetch for the c6 witness. -/
def gmmC6 : String → Except AppError MasterManifest :=
  fun _ => Except.ok manifestC5

/-- Witness for c6_quality_link_deterministic at a concrete network. -/
theorem c6_quality_link_deterministic_witness :
    quality_link gmuC6 gmmC6 ("http://u") Quality.q540p
      = quality_link gmuC6 gmmC6 ("http://u") Quality.q540p :=
  c6_quality_link_deterministic gmuC6 gmuC6 gmmC6 gmmC6 ("http://u")
    Quality.q540p (fun _ => rfl) (fun _ => rfl)

/-- C7: with no quality requested the flow returns the built URL verbatim
and performs no network request at all; with a quality requested, a
successful resolution has performed requests, the first being the built
URL (the provider call), followed by the manifest download. -/
theorem c7_master_link_no_download (url : String)
    (gmu : String → Except AppError String)
    (gmm : String → Except AppError MasterManifest) :
    resolveStreamUrl none url gmu gmm = Except.ok (url, [])
      ∧ ∀ (q : Quality) (r : String) (fetches : List String),
          resolveStreamUrl (some q) url gmu gmm = Except.ok (r, fetches) →
          fetches.length = 2 ∧ fetches.head? = some url := by
  refine ⟨rfl, ?_⟩
  intro q r fetches h
  simp only [resolveStreamUrl] at h
  cases hu : gmu url with
  | error e =>
    rw [hu, except_bind_error] at h
    cases h
  | ok masterUrl =>
    rw [hu, except_bind_ok] at h
    cases hm : gmm masterUrl with
    | error e =>
      rw [hm, except_bind_error] at h
      cases h
    | ok m3u8 =>
      rw [hm, except_bind_ok] at h
      cases hq : get_quality_url masterUrl m3u8 q with
      | error e =>
        rw [hq, except_bind_error] at h
        cases h
      | ok qualityUrl =>
        rw [hq, except_bind_ok] at h
        injection h with h1
        injection h1 with h2 h3
        subst h3
        exact ⟨rfl, rfl⟩

/-- A manifest exposing a 540p variant, fetched by a fixed network, for the
c7 witness. -/
def gmmC7 : String → Except AppError MasterManifest :=
  fun _ => Except.ok manifestC5

/-- Witness for c7_master_link_no_download: the no-quality branch is the
URL verbatim with no requests; the quality branch issued two requests
starting with the built URL. -/
theorem c7_master_link_no_download_witness :
    resolveStreamUrl none ("http://u") gmuC6 gmmC7 = Except.ok (("http://u"), [])
      ∧ ([("http://u"), "http://h/master.m3u8"] : List String).length = 2 :=
  ⟨(c7_master_link_no_download ("http://u") gmuC6 gmmC7).1,
    ((c7_master_link_no_download ("http://u") gmuC6 gmmC7).2 Quality.q540p
      ("http://h/540p/stream.m3u8") [("http://u"), "http://h/master.m3u8"] rfl).1⟩

/-- C8: when the per-game content fetch succeeds but the content's EPG list
is absent, the single-stream run aborts with the distinct
noStreamsAvailable error ("No streams available yet"), which is neither a
network error nor a parse error. -/
theorem c8_no_streams_distinct_error (sport : Sport) (cdn : Cdn)
    (quality : Option Quality) (sched : Schedule)
    (ggc : Nat → Except AppError GameContent)
    (gmu : String → Except AppError String)
    (gmm : String → Except AppError MasterManifest)
    (stdin : List (Option Nat)) (choice : Nat) (rest : List (Option Nat))
    (hsel : getValidInput (selectionTest sched.games.length) stdin = some (choice, rest))
    (g : ScheduleGame) (hg : sched.games.get? (choice - 1) = some g)
    (content : GameContent) (hc : ggc g.game_pk = Except.ok content)
    (hepg : content.media.epg = none) :
    processSingle sport cdn quality (Except.ok sched) ggc gmu gmm stdin
        = Except.error AppError.noStreamsAvailable
      ∧ (∀ m, AppError.noStreamsAvailable ≠ AppError.network m)
      ∧ (∀ m, AppError.noStreamsAvailable ≠ AppError.parse m) := by
  refine ⟨?_, fun m => by simp, fun m => by simp⟩
  have hg' : sched.games[choice - 1]? = some g := by
    simpa [List.get?_eq_getElem?] using hg
  simp [processSingle, selectIdx, except_bind_ok, except_bind_error, hsel,
    hg', hc, hepg]

/-- A one-game schedule for the c8 witness. -/
def schedC8 : Schedule :=
  { date := "2020-01-01"
    games := [{ game_pk := 1, time_local := "7:00 PM", away_name := "A", home_name := "H" }] }

/-- Content whose EPG list is absent, for the c8 witness. -/
def ggcC8 : Nat → Except AppError GameContent :=
  fun _ => Except.ok { media := { epg := none } }

/-- Witness for c8_no_streams_distinct_error at a concrete environment. -/
theorem c8_no_streams_distinct_error_witness :
    processSingle Sport.nhl Cdn.akc none (Except.ok schedC8) ggcC8 gmuC6 gmmC7 [some 1]
      = Except.error AppError.noStreamsAvailable :=
  (c8_no_streams_distinct_error Sport.nhl Cdn.akc none schedC8 ggcC8 gmuC6 gmmC7
    [some 1] 1 [] rfl _ rfl _ rfl rfl).1

/-- C10: an EPG list containing no entry titled exactly "NHLTV" or "MLBTV"
produces no stream menu and no resolved or printed URL, consumes no input,
and the run completes successfully. -/
theorem c10_epg_title_filter (sport : Sport) (cdn : Cdn)
    (quality : Option Quality) (dateStr : String)
    (gmu : String → Except AppError String)
    (gmm : String → Except AppError MasterManifest)
    (epgs : List Epg) (stdin : List (Option Nat))
    (h : ∀ e ∈ epgs, e.title ≠ "NHLTV" ∧ e.title ≠ "MLBTV") :
    processEpgList sport cdn quality dateStr gmu gmm epgs stdin
      = Except.ok ([], stdin) := by
  induction epgs with
  | nil => rfl
  | cons e rest ih =>
    have he := h e (List.mem_cons_self e rest)
    have hcond : ¬ (e.title = "NHLTV" ∨ e.title = "MLBTV") := by
      rintro (h1 | h2)
      · exact he.1 h1
      · exact he.2 h2
    simp only [processEpgList, if_neg hcond]
    exact ih (fun e' he' => h e' (List.mem_cons_of_mem _ he'))

/-- Witness for c10_epg_title_filter: highlight/recap entries produce no
output and leave the input untouched. -/
theorem c10_epg_title_filter_witness :
    processEpgList Sport.nhl Cdn.akc none ("2020-01-01") gmuC6 gmmC7
        [{ title := "Extended Highlights", items := some [] },
         { title := "Recap", items := none }] [some 1]
      = Except.ok ([], [some 1]) :=
  c10_epg_title_filter Sport.nhl Cdn.akc none ("2020-01-01") gmuC6 gmmC7
    [{ title := "Extended Highlights", items := some [] },
     { title := "Recap", items := none }] [some 1] (by decide)

end Lazystream
